import Mathlib

/-
Shallow embedding of `webex_mcp_server.py` (Webex Teams MCP server):
the tool catalog (`list_tools`), the dispatcher (`call_tool`), the
per-tool handlers, and lazy client construction from the
`WEBEX_ACCESS_TOKEN` environment variable.

Python conventions modelled explicitly:
  - argument bags are JSON-ish dictionaries (`Args`), with `d[k]`
    raising `KeyError` and `d.get(k)` returning an option;
  - Python truthiness (`if markdown:` is false for `None` and `""`);
  - `list(xs)[0]` raising `IndexError`, `iterator.__next__()` raising
    `StopIteration` on an empty lookup;
  - `str.lower()` modelled as per-character ASCII lowercasing;
  - `json.dumps(result, indent=2)` reproduced for the record shapes the
    handlers build;
  - backend calls are recorded in a trace so call counts are observable.
-/

namespace WebexMCP

/-- PyVal models a JSON-ish Python value occurring in an argument bag. -/
inductive PyVal where
  | vstr (s : String)
  | vint (n : Int)
  | vbool (b : Bool)
  | vnone
  deriving DecidableEq

/-- Python type name of a value, as used in AttributeError messages. -/
def PyVal.pyTypeName : PyVal → String
  | .vstr _ => "str"
  | .vint _ => "int"
  | .vbool _ => "bool"
  | .vnone => "NoneType"

/-- Python truthiness: None, "" , 0 and False are falsy. -/
def PyVal.truthy : PyVal → Bool
  | .vstr s => !(s == "")
  | .vint n => !(n == 0)
  | .vbool b => b
  | .vnone => false

/-- Truthiness of `dict.get` results (absent key behaves like None). -/
def truthyOpt : Option PyVal → Bool
  | none => false
  | some v => v.truthy

/-- PyErr models the exception values this program can raise. -/
inductive PyErr where
  | keyError (key : String)
  | indexError
  | valueError (msg : String)
  | typeError (msg : String)
  | attributeError (msg : String)
  | stopIteration
  | apiError (msg : String)
  deriving DecidableEq

/-- Result of Python `str(e)` on each exception value. -/
def PyErr.toStr : PyErr → String
  | .keyError k => "\x27" ++ k ++ "\x27"
  | .indexError => "list index out of range"
  | .valueError m => m
  | .typeError m => m
  | .attributeError m => m
  | .stopIteration => ""
  | .apiError m => m

/-- Argument bag: the `arguments` dictionary of an invocation. -/
abbrev Args : Type := List (String × PyVal)

/-- Dictionary lookup, `args.get(k)` (first binding wins). -/
def argGet (a : Args) (k : String) : Option PyVal :=
  match a with
  | [] => none
  | kv :: rest => if kv.1 = k then some kv.2 else argGet rest k

/-- Dictionary lookup with default, `args.get(k, d)`. -/
def argGetD (a : Args) (k : String) (d : PyVal) : PyVal :=
  (argGet a k).getD d

/-- ASCII model of Python `str.lower()`. -/
def pyStrLower (s : String) : String := String.mk (s.data.map Char.toLower)

/-- Membership test for `needle` as a prefix of `hay` (char lists). -/
def chStartsWith (needle hay : List Char) : Bool :=
  match needle, hay with
  | [], _ => true
  | _, [] => false
  | c :: cs, d :: ds => c == d && chStartsWith cs ds

/-- Python `needle in hay` substring test on char lists. -/
def chContains (hay needle : List Char) : Bool :=
  match hay with
  | [] => needle.isEmpty
  | _ :: t => chStartsWith needle hay || chContains t needle

/-- Python `needle in hay` substring test on strings. -/
def strContains (hay needle : String) : Bool :=
  chContains hay.data needle.data

/-- Backend entity: a person record as the client library returns it. -/
structure Person where
  id : String
  emails : List String
  displayName : String
  firstName : Option String
  lastName : Option String
  created : String
  orgId : String
  type : String
  deriving DecidableEq

/-- Backend entity: a room (space) record. -/
structure Room where
  id : String
  title : String
  type : String
  created : String
  lastActivity : Option String
  creatorId : Option String
  deriving DecidableEq

/-- Backend entity: a message record. -/
structure Message where
  id : String
  roomId : String
  text : String
  personEmail : String
  created : String
  deriving DecidableEq

/-- Backend entity: a membership record. -/
structure Membership where
  id : String
  roomId : String
  personEmail : String
  personDisplayName : String
  isModerator : Bool
  created : String
  deriving DecidableEq

/-- One content block of an invocation result (`TextContent`). -/
structure TextContent where
  type : String
  text : String
  deriving DecidableEq

/-- Scalar JSON values appearing in handler result records. -/
inductive JScalar where
  | s (v : String)
  | i (n : Int)
  | b (v : Bool)
  | null
  | strs (xs : List String)
  deriving DecidableEq

/-- A flat JSON object (all values scalar), e.g. one space summary. -/
abbrev JFlat : Type := List (String × JScalar)

/-- A top-level field value: scalar, or a list of flat objects. -/
inductive JField where
  | scalar (v : JScalar)
  | objs (xs : List JFlat)
  deriving DecidableEq

/-- A top-level handler result record. -/
abbrev JTop : Type := List (String × JField)

/-- Lowercase hex digit, as json.dumps emits in escapes. -/
def hexDigitChar (n : Nat) : Char :=
  if n < 10 then Char.ofNat (48 + n) else Char.ofNat (87 + n % 16)

/-- Four-digit hex rendering for a unicode escape. -/
def hex4 (n : Nat) : String :=
  String.mk [hexDigitChar (n / 4096 % 16), hexDigitChar (n / 256 % 16),
             hexDigitChar (n / 16 % 16), hexDigitChar (n % 16)]

/-- Character escaping of json.dumps with its default ensure_ascii. -/
def jsonEscapeChar (c : Char) : String :=
  if c = '"' then "\\\""
  else if c = '\\' then "\\\\"
  else if c = '\n' then "\\n"
  else if c = '\r' then "\\r"
  else if c = '\t' then "\\t"
  else if c.toNat = 8 then "\\b"
  else if c.toNat = 12 then "\\f"
  else if c.toNat < 32 then "\\u" ++ hex4 c.toNat
  else if c.toNat ≤ 126 then String.mk [c]
  else if c.toNat < 65536 then "\\u" ++ hex4 c.toNat
  else
    "\\u" ++ hex4 (55296 + (c.toNat - 65536) / 1024) ++
    "\\u" ++ hex4 (56320 + (c.toNat - 65536) % 1024)

/-- JSON string literal rendering. -/
def jsonQuote (s : String) : String :=
  "\"" ++ String.join (s.data.map jsonEscapeChar) ++ "\""

/-- Indentation run of `n` spaces. -/
def indentSp (n : Nat) : String := String.mk (List.replicate n ' ')

/-- Scalar rendering of json.dumps at indentation `ind`. -/
def dumpScalar (ind : Nat) : JScalar → String
  | .s v => jsonQuote v
  | .i n => toString n
  | .b true => "true"
  | .b false => "false"
  | .null => "null"
  | .strs [] => "[]"
  | .strs (x :: xs) =>
      "[\n" ++
      String.intercalate ",\n"
        ((x :: xs).map (fun y => indentSp (ind + 2) ++ jsonQuote y)) ++
      "\n" ++ indentSp ind ++ "]"

/-- Flat-object rendering of json.dumps(·, indent=2) at indentation `ind`. -/
def dumpFlat (ind : Nat) (o : JFlat) : String :=
  match o with
  | [] => "\x7b\x7d"
  | kv :: rest =>
      "\x7b\n" ++
      String.intercalate ",\n"
        ((kv :: rest).map
          (fun p => indentSp (ind + 2) ++ jsonQuote p.1 ++ ": " ++
            dumpScalar (ind + 2) p.2)) ++
      "\n" ++ indentSp ind ++ "\x7d"

/-- Field rendering of json.dumps(·, indent=2) at indentation `ind`. -/
def dumpField (ind : Nat) : JField → String
  | .scalar v => dumpScalar ind v
  | .objs [] => "[]"
  | .objs (o :: os) =>
      "[\n" ++
      String.intercalate ",\n"
        ((o :: os).map (fun x => indentSp (ind + 2) ++ dumpFlat (ind + 2) x)) ++
      "\n" ++ indentSp ind ++ "]"

/-- Model of `json.dumps(result, indent=2)` on a handler record. -/
def dumps (t : JTop) : String :=
  match t with
  | [] => "\x7b\x7d"
  | kv :: rest =>
      "\x7b\n" ++
      String.intercalate ",\n"
        ((kv :: rest).map
          (fun p => indentSp 2 ++ jsonQuote p.1 ++ ": " ++ dumpField 2 p.2)) ++
      "\n\x7d"

/-- JSON scalar for an argument value passed through into a record. -/
def pyvalScalar : PyVal → JScalar
  | .vstr s => .s s
  | .vint n => .i n
  | .vbool b => .b b
  | .vnone => .null

/-- JSON scalar for an optional backend string field (None renders null). -/
def optScalar : Option String → JScalar
  | some s => .s s
  | none => .null

/-- One backend call, as recorded in the invocation trace. -/
inductive BackendCall where
  | peopleList (email : PyVal)
  | peopleGet (id : PyVal)
  | peopleMe
  | roomsList (params : List (String × PyVal))
  | roomsGet (id : PyVal)
  | roomsCreate (params : List (String × PyVal))
  | messagesCreate (params : List (String × PyVal))
  | messagesList (roomId maxMessages : PyVal)
  | messagesDelete (id : PyVal)
  | membershipsCreate (roomId email moderator : PyVal)
  | membershipsList (roomId : PyVal)
  deriving DecidableEq

/-- Decidable equality for Except, needed to evaluate handler results. -/
instance {ε α : Type} [DecidableEq ε] [DecidableEq α] :
    DecidableEq (Except ε α) := fun x y =>
  match x, y with
  | Except.error e1, Except.error e2 =>
      if h : e1 = e2 then Decidable.isTrue (by rw [h])
      else Decidable.isFalse (fun hh => by cases hh; exact h rfl)
  | Except.error _, Except.ok _ =>
      Decidable.isFalse (fun hh => Except.noConfusion hh)
  | Except.ok _, Except.error _ =>
      Decidable.isFalse (fun hh => Except.noConfusion hh)
  | Except.ok a1, Except.ok a2 =>
      if h : a1 = a2 then Decidable.isTrue (by rw [h])
      else Decidable.isFalse (fun hh => by cases hh; exact h rfl)

/-- Handler computation: a backend-call trace plus a value or exception. -/
structure M (α : Type) where
  trace : List BackendCall
  res : Except PyErr α
  deriving DecidableEq

/-- Sequencing of handler steps: an exception short-circuits. -/
def M.bind {α β : Type} (x : M α) (f : α → M β) : M β :=
  match x.res with
  | Except.error e => ⟨x.trace, Except.error e⟩
  | Except.ok a => ⟨x.trace ++ (f a).trace, (f a).res⟩

instance : Monad M where
  pure a := ⟨[], Except.ok a⟩
  bind := M.bind

/-- Raise a Python exception. -/
def M.raise {α : Type} (e : PyErr) : M α := ⟨[], Except.error e⟩

/-- Perform one backend call, recording it in the trace. -/
def liftB {α : Type} (c : BackendCall) (r : Except PyErr α) : M α := ⟨[c], r⟩

/-- Python `args[k]`: KeyError when the key is absent. -/
def getItem (a : Args) (k : String) : M PyVal :=
  match argGet a k with
  | some v => ⟨[], Except.ok v⟩
  | none => ⟨[], Except.error (PyErr.keyError k)⟩

/-- Python `iterator.__next__()`: StopIteration on an empty lookup. -/
def pyNext {α : Type} : List α → M α
  | [] => M.raise PyErr.stopIteration
  | a :: _ => ⟨[], Except.ok a⟩

/-- Python `list(xs)[0]`: IndexError on an empty list. -/
def pyIndex0 {α : Type} : List α → M α
  | [] => M.raise PyErr.indexError
  | a :: _ => ⟨[], Except.ok a⟩

/-- Python `value.lower()` on an argument value. -/
def pyLowerVal : PyVal → M String
  | .vstr s => ⟨[], Except.ok (pyStrLower s)⟩
  | v => M.raise (PyErr.attributeError
      ("\x27" ++ v.pyTypeName ++ "\x27 object has no attribute \x27lower\x27"))

/-- Python slice bound `l[:v]`: int or bool accepted, None is no bound. -/
def pySliceArg : PyVal → M (Option Int)
  | .vint n => ⟨[], Except.ok (some n)⟩
  | .vbool b => ⟨[], Except.ok (some (if b then 1 else 0))⟩
  | .vnone => ⟨[], Except.ok none⟩
  | .vstr _ => M.raise (PyErr.typeError
      "slice indices must be integers or None or have an __index__ method")

/-- Python list slicing `l[:n]`, including negative bounds. -/
def pySliceTo {α : Type} (l : List α) : Option Int → List α
  | none => l
  | some n => if n < 0 then l.take (l.length - n.natAbs) else l.take n.toNat

/-- Observable behaviour of the authenticated Webex client's methods. -/
structure Backend where
  peopleList : PyVal → Except PyErr (List Person)
  peopleGet : PyVal → Except PyErr Person
  peopleMe : Except PyErr Person
  roomsList : List (String × PyVal) → Except PyErr (List Room)
  roomsGet : PyVal → Except PyErr Room
  roomsCreate : List (String × PyVal) → Except PyErr Room
  messagesCreate : List (String × PyVal) → Except PyErr Message
  messagesList : PyVal → PyVal → Except PyErr (List Message)
  messagesDelete : PyVal → Except PyErr Unit
  membershipsCreate : PyVal → PyVal → PyVal → Except PyErr Membership
  membershipsList : PyVal → Except PyErr (List Membership)

/-- Result record built by `handle_send_message`. -/
def send_message_record (m : Message) : JTop :=
  [ ("message_id", JField.scalar (JScalar.s m.id))
  , ("room_id", JField.scalar (JScalar.s m.roomId))
  , ("text", JField.scalar (JScalar.s m.text))
  , ("created", JField.scalar (JScalar.s m.created)) ]

/-- Embeds `handle_send_message`. -/
def handle_send_message (b : Backend) (args : Args) : M (List TextContent) := do
  let room_id ← getItem args "room_id"
  let text ← getItem args "text"
  let markdown := argGet args "markdown"
  let person_email := argGet args "person_email"
  let ps0 : List (String × PyVal) := [("roomId", room_id), ("text", text)]
  let ps1 := match markdown with
    | some m => if m.truthy then ps0 ++ [("markdown", m)] else ps0
    | none => ps0
  let ps2 ← (match person_email with
    | some pe =>
      if pe.truthy then do
        let people ← liftB (BackendCall.peopleList pe) (b.peopleList pe)
        let person ← pyNext people
        pure (ps1 ++ [("toPersonId", PyVal.vstr person.id)])
      else pure ps1
    | none => pure ps1)
  let message ← liftB (BackendCall.messagesCreate ps2) (b.messagesCreate ps2)
  pure [⟨"text", "Message sent successfully!\n\n" ++
          dumps (send_message_record message)⟩]

/-- Per-space summary built by `handle_list_spaces`. -/
def list_spaces_entry (room : Room) : JFlat :=
  [ ("id", JScalar.s room.id)
  , ("title", JScalar.s room.title)
  , ("type", JScalar.s room.type)
  , ("created", JScalar.s room.created)
  , ("lastActivity", optScalar room.lastActivity) ]

/-- Embeds `handle_list_spaces`. -/
def handle_list_spaces (b : Backend) (args : Args) : M (List TextContent) := do
  let max_results := argGetD args "max_results" (PyVal.vint 50)
  let space_type := argGet args "type"
  let params : List (String × PyVal) :=
    [("max", max_results)] ++ (match space_type with
      | some t => if t.truthy then [("type", t)] else []
      | none => [])
  let rooms ← liftB (BackendCall.roomsList params) (b.roomsList params)
  let spaces_info := rooms.map list_spaces_entry
  let result : JTop :=
    [ ("total_spaces", JField.scalar (JScalar.i spaces_info.length))
    , ("spaces", JField.objs spaces_info) ]
  pure [⟨"text", "Found " ++ toString spaces_info.length ++ " spaces:\n\n" ++
          dumps result⟩]

/-- Details record built by `handle_get_space_details`. -/
def space_details_record (room : Room) : JTop :=
  [ ("id", JField.scalar (JScalar.s room.id))
  , ("title", JField.scalar (JScalar.s room.title))
  , ("type", JField.scalar (JScalar.s room.type))
  , ("created", JField.scalar (JScalar.s room.created))
  , ("lastActivity", JField.scalar (optScalar room.lastActivity))
  , ("creatorId", JField.scalar (optScalar room.creatorId)) ]

/-- Embeds `handle_get_space_details`. -/
def handle_get_space_details (b : Backend) (args : Args) :
    M (List TextContent) := do
  let room_id ← getItem args "room_id"
  let room ← liftB (BackendCall.roomsGet room_id) (b.roomsGet room_id)
  pure [⟨"text", "Space details:\n\n" ++ dumps (space_details_record room)⟩]

/-- Per-message summary built by `handle_get_messages`. -/
def get_messages_entry (msg : Message) : JFlat :=
  [ ("id", JScalar.s msg.id)
  , ("personEmail", JScalar.s msg.personEmail)
  , ("text", JScalar.s msg.text)
  , ("created", JScalar.s msg.created) ]

/-- Embeds `handle_get_messages`. -/
def handle_get_messages (b : Backend) (args : Args) : M (List TextContent) := do
  let room_id ← getItem args "room_id"
  let max_messages := argGetD args "max_messages" (PyVal.vint 20)
  let messages ← liftB (BackendCall.messagesList room_id max_messages)
    (b.messagesList room_id max_messages)
  let messages_info := messages.map get_messages_entry
  let result : JTop :=
    [ ("room_id", JField.scalar (pyvalScalar room_id))
    , ("message_count", JField.scalar (JScalar.i messages_info.length))
    , ("messages", JField.objs messages_info) ]
  pure [⟨"text", "Retrieved " ++ toString messages_info.length ++
          " messages:\n\n" ++ dumps result⟩]

/-- Result record built by `handle_create_space`. -/
def create_space_record (room : Room) : JTop :=
  [ ("id", JField.scalar (JScalar.s room.id))
  , ("title", JField.scalar (JScalar.s room.title))
  , ("type", JField.scalar (JScalar.s room.type))
  , ("created", JField.scalar (JScalar.s room.created)) ]

/-- Embeds `handle_create_space`. -/
def handle_create_space (b : Backend) (args : Args) : M (List TextContent) := do
  let title ← getItem args "title"
  let team_id := argGet args "team_id"
  let params : List (String × PyVal) :=
    [("title", title)] ++ (match team_id with
      | some t => if t.truthy then [("teamId", t)] else []
      | none => [])
  let room ← liftB (BackendCall.roomsCreate params) (b.roomsCreate params)
  pure [⟨"text", "Space created successfully!\n\n" ++
          dumps (create_space_record room)⟩]

/-- Result record built by `handle_add_person_to_space`. -/
def add_person_record (ms : Membership) : JTop :=
  [ ("membership_id", JField.scalar (JScalar.s ms.id))
  , ("room_id", JField.scalar (JScalar.s ms.roomId))
  , ("person_email", JField.scalar (JScalar.s ms.personEmail))
  , ("is_moderator", JField.scalar (JScalar.b ms.isModerator)) ]

/-- Embeds `handle_add_person_to_space`. -/
def handle_add_person_to_space (b : Backend) (args : Args) :
    M (List TextContent) := do
  let room_id ← getItem args "room_id"
  let person_email ← getItem args "person_email"
  let is_moderator := argGetD args "is_moderator" (PyVal.vbool false)
  let membership ← liftB
    (BackendCall.membershipsCreate room_id person_email is_moderator)
    (b.membershipsCreate room_id person_email is_moderator)
  pure [⟨"text", "Person added successfully!\n\n" ++
          dumps (add_person_record membership)⟩]

/-- Per-member summary built by `handle_list_space_members`. -/
def member_entry (ms : Membership) : JFlat :=
  [ ("person_email", JScalar.s ms.personEmail)
  , ("person_display_name", JScalar.s ms.personDisplayName)
  , ("is_moderator", JScalar.b ms.isModerator)
  , ("created", JScalar.s ms.created) ]

/-- Embeds `handle_list_space_members`. -/
def handle_list_space_members (b : Backend) (args : Args) :
    M (List TextContent) := do
  let room_id ← getItem args "room_id"
  let memberships ← liftB (BackendCall.membershipsList room_id)
    (b.membershipsList room_id)
  let members_info := memberships.map member_entry
  let result : JTop :=
    [ ("room_id", JField.scalar (pyvalScalar room_id))
    , ("member_count", JField.scalar (JScalar.i members_info.length))
    , ("members", JField.objs members_info) ]
  pure [⟨"text", "Found " ++ toString members_info.length ++
          " members:\n\n" ++ dumps result⟩]

/-- Details record built by `handle_get_person_details`. -/
def person_details_record (p : Person) : JTop :=
  [ ("id", JField.scalar (JScalar.s p.id))
  , ("emails", JField.scalar (JScalar.strs p.emails))
  , ("displayName", JField.scalar (JScalar.s p.displayName))
  , ("firstName", JField.scalar (optScalar p.firstName))
  , ("lastName", JField.scalar (optScalar p.lastName))
  , ("created", JField.scalar (JScalar.s p.created)) ]

/-- Embeds `handle_get_person_details`. -/
def handle_get_person_details (b : Backend) (args : Args) :
    M (List TextContent) := do
  let email := argGet args "email"
  let person_id := argGet args "person_id"
  let person ← (if truthyOpt email then do
      let people ← liftB (BackendCall.peopleList (email.getD PyVal.vnone))
        (b.peopleList (email.getD PyVal.vnone))
      pyIndex0 people
    else if truthyOpt person_id then
      liftB (BackendCall.peopleGet (person_id.getD PyVal.vnone))
        (b.peopleGet (person_id.getD PyVal.vnone))
    else M.raise (PyErr.valueError "Either email or person_id must be provided"))
  pure [⟨"text", "Person details:\n\n" ++ dumps (person_details_record person)⟩]

/-- Result record built by `handle_delete_message`. -/
def delete_message_record (message_id : PyVal) : JTop :=
  [ ("status", JField.scalar (JScalar.s "success"))
  , ("message_id", JField.scalar (pyvalScalar message_id))
  , ("action", JField.scalar (JScalar.s "deleted")) ]

/-- Embeds `handle_delete_message`. -/
def handle_delete_message (b : Backend) (args : Args) :
    M (List TextContent) := do
  let message_id ← getItem args "message_id"
  let _ ← liftB (BackendCall.messagesDelete message_id)
    (b.messagesDelete message_id)
  pure [⟨"text", "Message deleted successfully!\n\n" ++
          dumps (delete_message_record message_id)⟩]

/-- Client-side filter of `handle_search_spaces` (source lines 526-529):
case-insensitive substring selection then Python slice to max_results.
`search_term` arrives already lowercased, as at source line 522. -/
def search_matching_rooms (all_rooms : List Room) (search_term : String)
    (max_results : Option Int) : List Room :=
  pySliceTo
    (all_rooms.filter (fun room => strContains (pyStrLower room.title) search_term))
    max_results

/-- Per-space summary built by `handle_search_spaces`. -/
def search_entry (room : Room) : JFlat :=
  [ ("id", JScalar.s room.id)
  , ("title", JScalar.s room.title)
  , ("type", JScalar.s room.type)
  , ("created", JScalar.s room.created) ]

/-- Embeds `handle_search_spaces`. -/
def handle_search_spaces (b : Backend) (args : Args) :
    M (List TextContent) := do
  let stArg ← getItem args "search_term"
  let search_term ← pyLowerVal stArg
  let max_results := argGetD args "max_results" (PyVal.vint 20)
  let all_rooms ← liftB (BackendCall.roomsList [("max", PyVal.vint 100)])
    (b.roomsList [("max", PyVal.vint 100)])
  let bound ← pySliceArg max_results
  let matching_rooms := search_matching_rooms all_rooms search_term bound
  let spaces_info := matching_rooms.map search_entry
  let result : JTop :=
    [ ("search_term", JField.scalar (JScalar.s search_term))
    , ("matches_found", JField.scalar (JScalar.i spaces_info.length))
    , ("spaces", JField.objs spaces_info) ]
  pure [⟨"text", "Found " ++ toString spaces_info.length ++
          " matching spaces:\n\n" ++ dumps result⟩]

/-- Details record built by `handle_get_my_details`. -/
def my_details_record (me : Person) : JTop :=
  [ ("id", JField.scalar (JScalar.s me.id))
  , ("emails", JField.scalar (JScalar.strs me.emails))
  , ("displayName", JField.scalar (JScalar.s me.displayName))
  , ("firstName", JField.scalar (optScalar me.firstName))
  , ("lastName", JField.scalar (optScalar me.lastName))
  , ("orgId", JField.scalar (JScalar.s me.orgId))
  , ("created", JField.scalar (JScalar.s me.created))
  , ("type", JField.scalar (JScalar.s me.type)) ]

/-- Embeds `handle_get_my_details`. -/
def handle_get_my_details (b : Backend) (_args : Args) :
    M (List TextContent) := do
  let me ← liftB BackendCall.peopleMe b.peopleMe
  pure [⟨"text", "Bot/User details:\n\n" ++ dumps (my_details_record me)⟩]

/-- The if/elif handler chain inside `call_tool` (source lines 250-273). -/
def dispatch (b : Backend) (name : String) (args : Args) :
    M (List TextContent) :=
  if name = "send_message" then handle_send_message b args
  else if name = "list_spaces" then handle_list_spaces b args
  else if name = "get_space_details" then handle_get_space_details b args
  else if name = "get_messages" then handle_get_messages b args
  else if name = "create_space" then handle_create_space b args
  else if name = "add_person_to_space" then handle_add_person_to_space b args
  else if name = "list_space_members" then handle_list_space_members b args
  else if name = "get_person_details" then handle_get_person_details b args
  else if name = "delete_message" then handle_delete_message b args
  else if name = "search_spaces" then handle_search_spaces b args
  else if name = "get_my_details" then handle_get_my_details b args
  else M.raise (PyErr.valueError ("Unknown tool: " ++ name))

/-- The process environment, mapping variable names to values. -/
abbrev EnvMap : Type := String → Option String

/-- The constructed Webex client handle (`WebexTeamsAPI(access_token=...)`). -/
structure Client where
  access_token : String
  deriving DecidableEq

/-- Error text raised when the token variable is absent or empty. -/
def tokenErrorMsg : String :=
  "WEBEX_ACCESS_TOKEN environment variable is required. " ++
  "Get your token from: https://developer.webex.com/docs/getting-started"

/-- Embeds `initialize_webex_client`: the list of environment variables it
reads, paired with the constructed client or the raised ValueError. -/
def init_webex_client (env : EnvMap) : List String × Except PyErr Client :=
  (["WEBEX_ACCESS_TOKEN"],
    match env "WEBEX_ACCESS_TOKEN" with
    | none => Except.error (PyErr.valueError tokenErrorMsg)
    | some t =>
        if t = "" then Except.error (PyErr.valueError tokenErrorMsg)
        else Except.ok ⟨t⟩)

/-- The module-level mutable state: the global `webex_api` variable. -/
structure ServerState where
  webex_api : Option Client
  deriving DecidableEq

/-- How one `call_tool` invocation ends: a returned content list, or an
exception propagating out of `call_tool` itself. -/
inductive CallOutcome where
  | escaped (e : PyErr)
  | result (content : List TextContent)
  deriving DecidableEq

/-- Everything observable about one `call_tool` invocation. -/
structure CallResult where
  outcome : CallOutcome
  state : ServerState
  trace : List BackendCall
  constructions : Nat
  envReads : Nat
  deriving DecidableEq

/-- The except-clauses of `call_tool` (source lines 275-282): ApiError
first, then the catch-all, each rendered as one text block. -/
def wrapResult : Except PyErr (List TextContent) → List TextContent
  | Except.ok content => content
  | Except.error (PyErr.apiError m) => [⟨"text", "Webex API Error: " ++ m⟩]
  | Except.error e => [⟨"text", "Error: " ++ e.toStr⟩]

/-- Embeds `call_tool` (source lines 241-282): the lazy client check runs
before the try-block, then the handler chain runs inside it. -/
def call_tool (b : Backend) (env : EnvMap) (st : ServerState)
    (name : String) (args : Args) : CallResult :=
  match st.webex_api with
  | some _ =>
      let r := dispatch b name args
      ⟨CallOutcome.result (wrapResult r.res), st, r.trace, 0, 0⟩
  | none =>
      match (init_webex_client env).2 with
      | Except.error e => ⟨CallOutcome.escaped e, st, [], 0, 1⟩
      | Except.ok c =>
          let r := dispatch b name args
          ⟨CallOutcome.result (wrapResult r.res), ⟨some c⟩, r.trace, 1, 1⟩

/-- Sequential invocations: final state plus total construction count and
total environment-read count. -/
def runCalls (b : Backend) (env : EnvMap) :
    ServerState → List (String × Args) → ServerState × Nat × Nat
  | st, [] => (st, 0, 0)
  | st, (n, a) :: rest =>
      let r := call_tool b env st n a
      let acc := runCalls b env r.state rest
      (acc.1, r.constructions + acc.2.1, r.envReads + acc.2.2)

/-- Required dictionary keys each handler reads with `args[k]`, in the
order the handler reads them. -/
def requiredPairs : List (String × String) :=
  [ ("send_message", "room_id"), ("send_message", "text")
  , ("get_space_details", "room_id")
  , ("get_messages", "room_id")
  , ("create_space", "title")
  , ("add_person_to_space", "room_id"), ("add_person_to_space", "person_email")
  , ("list_space_members", "room_id")
  , ("delete_message", "message_id")
  , ("search_spaces", "search_term") ]

/-- JSON values for transcribing the catalog's input schemas. -/
inductive J where
  | s (v : String)
  | i (n : Int)
  | b (v : Bool)
  | null
  | arr (xs : List J)
  | obj (fields : List (String × J))

/-- One catalog entry (`Tool`). -/
structure Tool where
  name : String
  description : String
  inputSchema : J

/-- Embeds `list_tools` (source lines 43-238): the full fixed catalog. -/
def list_tools : List Tool :=
  [ { name := "send_message"
    , description := "Send a message to a Webex Teams space/room. Can send text and optionally mention people."
    , inputSchema := J.obj
        [ ("type", J.s "object")
        , ("properties", J.obj
            [ ("room_id", J.obj [("type", J.s "string"), ("description", J.s "The ID of the room/space to send the message to")])
            , ("text", J.obj [("type", J.s "string"), ("description", J.s "The message text to send (supports Markdown)")])
            , ("markdown", J.obj [("type", J.s "string"), ("description", J.s "Optional: Markdown-formatted message (overrides text if provided)")])
            , ("person_email", J.obj [("type", J.s "string"), ("description", J.s "Optional: Email of person to mention in the message")]) ])
        , ("required", J.arr [J.s "room_id", J.s "text"]) ] }
  , { name := "list_spaces"
    , description := "List all Webex Teams spaces/rooms the bot has access to. Returns space IDs, names, and types."
    , inputSchema := J.obj
        [ ("type", J.s "object")
        , ("properties", J.obj
            [ ("max_results", J.obj [("type", J.s "integer"), ("description", J.s "Maximum number of spaces to return (default: 50)"), ("default", J.i 50)])
            , ("type", J.obj [("type", J.s "string"), ("description", J.s "Filter by space type: \x27direct\x27 or \x27group\x27"), ("enum", J.arr [J.s "direct", J.s "group"])]) ]) ] }
  , { name := "get_space_details"
    , description := "Get detailed information about a specific Webex Teams space including title, type, and creation date."
    , inputSchema := J.obj
        [ ("type", J.s "object")
        , ("properties", J.obj
            [ ("room_id", J.obj [("type", J.s "string"), ("description", J.s "The ID of the room/space")]) ])
        , ("required", J.arr [J.s "room_id"]) ] }
  , { name := "get_messages"
    , description := "Retrieve recent messages from a Webex Teams space. Returns message content, sender, and timestamps."
    , inputSchema := J.obj
        [ ("type", J.s "object")
        , ("properties", J.obj
            [ ("room_id", J.obj [("type", J.s "string"), ("description", J.s "The ID of the room/space")])
            , ("max_messages", J.obj [("type", J.s "integer"), ("description", J.s "Maximum number of messages to retrieve (default: 20)"), ("default", J.i 20)]) ])
        , ("required", J.arr [J.s "room_id"]) ] }
  , { name := "create_space"
    , description := "Create a new Webex Teams space/room with specified members."
    , inputSchema := J.obj
        [ ("type", J.s "object")
        , ("properties", J.obj
            [ ("title", J.obj [("type", J.s "string"), ("description", J.s "The title/name of the new space")])
            , ("team_id", J.obj [("type", J.s "string"), ("description", J.s "Optional: Team ID if creating space within a team")]) ])
        , ("required", J.arr [J.s "title"]) ] }
  , { name := "add_person_to_space"
    , description := "Add a person to a Webex Teams space by their email address."
    , inputSchema := J.obj
        [ ("type", J.s "object")
        , ("properties", J.obj
            [ ("room_id", J.obj [("type", J.s "string"), ("description", J.s "The ID of the room/space")])
            , ("person_email", J.obj [("type", J.s "string"), ("description", J.s "Email address of the person to add")])
            , ("is_moderator", J.obj [("type", J.s "boolean"), ("description", J.s "Whether to make the person a moderator (default: false)"), ("default", J.b false)]) ])
        , ("required", J.arr [J.s "room_id", J.s "person_email"]) ] }
  , { name := "list_space_members"
    , description := "List all members in a Webex Teams space including their names, emails, and roles."
    , inputSchema := J.obj
        [ ("type", J.s "object")
        , ("properties", J.obj
            [ ("room_id", J.obj [("type", J.s "string"), ("description", J.s "The ID of the room/space")]) ])
        , ("required", J.arr [J.s "room_id"]) ] }
  , { name := "get_person_details"
    , description := "Get detailed information about a person by email or person ID."
    , inputSchema := J.obj
        [ ("type", J.s "object")
        , ("properties", J.obj
            [ ("email", J.obj [("type", J.s "string"), ("description", J.s "Email address of the person (use email OR person_id)")])
            , ("person_id", J.obj [("type", J.s "string"), ("description", J.s "Person ID (use email OR person_id)")]) ]) ] }
  , { name := "delete_message"
    , description := "Delete a message from a Webex Teams space (requires appropriate permissions)."
    , inputSchema := J.obj
        [ ("type", J.s "object")
        , ("properties", J.obj
            [ ("message_id", J.obj [("type", J.s "string"), ("description", J.s "The ID of the message to delete")]) ])
        , ("required", J.arr [J.s "message_id"]) ] }
  , { name := "search_spaces"
    , description := "Search for Webex Teams spaces by name/title."
    , inputSchema := J.obj
        [ ("type", J.s "object")
        , ("properties", J.obj
            [ ("search_term", J.obj [("type", J.s "string"), ("description", J.s "Text to search for in space names")])
            , ("max_results", J.obj [("type", J.s "integer"), ("description", J.s "Maximum number of results (default: 20)"), ("default", J.i 20)]) ])
        , ("required", J.arr [J.s "search_term"]) ] }
  , { name := "get_my_details"
    , description := "Get information about the authenticated bot/user including name, email, and organization."
    , inputSchema := J.obj
        [ ("type", J.s "object")
        , ("properties", J.obj []) ] } ]

/-- Fixture person for concrete evaluations. -/
def demoPerson : Person :=
  { id := "person-1", emails := ["alice@example.com"], displayName := "Alice"
  , firstName := some "Alice", lastName := some "Ann"
  , created := "2024-01-01 00:00:00", orgId := "org-1", type := "people" }

/-- Fixture room titled "Project Alpha". -/
def demoRoom1 : Room :=
  { id := "room-1", title := "Project Alpha", type := "group"
  , created := "2024-01-01 00:00:00"
  , lastActivity := some "2024-01-02 00:00:00", creatorId := some "person-1" }

/-- Fixture room titled "random". -/
def demoRoom2 : Room :=
  { id := "room-2", title := "random", type := "group"
  , created := "2024-01-01 00:00:00", lastActivity := none, creatorId := none }

/-- Fixture room titled "PROJ notes". -/
def demoRoom3 : Room :=
  { id := "room-3", title := "PROJ notes", type := "group"
  , created := "2024-01-01 00:00:00", lastActivity := none, creatorId := none }

/-- Fixture message. -/
def demoMessage : Message :=
  { id := "msg-1", roomId := "room-1", text := "hello"
  , personEmail := "alice@example.com", created := "2024-01-03 00:00:00" }

/-- Fixture membership. -/
def demoMembership : Membership :=
  { id := "ms-1", roomId := "room-1", personEmail := "alice@example.com"
  , personDisplayName := "Alice", isModerator := false
  , created := "2024-01-01 00:00:00" }

/-- Fixture backend where every call succeeds. -/
def demoBackend : Backend :=
  { peopleList := fun _ => Except.ok [demoPerson]
  , peopleGet := fun _ => Except.ok demoPerson
  , peopleMe := Except.ok demoPerson
  , roomsList := fun _ => Except.ok [demoRoom1, demoRoom2, demoRoom3]
  , roomsGet := fun _ => Except.ok demoRoom1
  , roomsCreate := fun _ => Except.ok demoRoom1
  , messagesCreate := fun _ => Except.ok demoMessage
  , messagesList := fun _ _ => Except.ok [demoMessage]
  , messagesDelete := fun _ => Except.ok ()
  , membershipsCreate := fun _ _ _ => Except.ok demoMembership
  , membershipsList := fun _ => Except.ok [demoMembership] }

/-- Fixture backend whose person lookup finds nobody. -/
def emptyPeopleBackend : Backend :=
  { demoBackend with peopleList := fun _ => Except.ok [] }

/-- Environment with a valid token. -/
def demoEnv : EnvMap :=
  fun k => if k = "WEBEX_ACCESS_TOKEN" then some "demo-token" else none

/-- Environment with no variables at all. -/
def noEnv : EnvMap := fun _ => none

/-- Fixture client handle. -/
def demoClient : Client := ⟨"demo-token"⟩

/-- Unfolding lemma: do-notation bind is M.bind. -/
@[simp] theorem M_bind_def {α β : Type} (x : M α) (f : α → M β) :
    (x >>= f) = M.bind x f := rfl

/-- Unfolding lemma: pure produces an empty trace and an ok value. -/
@[simp] theorem M_pure_def {α : Type} (a : α) :
    (pure a : M α) = ⟨[], Except.ok a⟩ := rfl

/-- An exception short-circuits the rest of the handler. -/
@[simp] theorem M_bind_mk_error {α β : Type} (t : List BackendCall)
    (e : PyErr) (f : α → M β) :
    M.bind ⟨t, Except.error e⟩ f = ⟨t, Except.error e⟩ := rfl

/-- A successful step prepends its trace and continues. -/
@[simp] theorem M_bind_mk_ok {α β : Type} (t : List BackendCall) (a : α)
    (f : α → M β) :
    M.bind ⟨t, Except.ok a⟩ f = ⟨t ++ (f a).trace, (f a).res⟩ := rfl

/-- With the client already cached, an invocation never constructs it,
never reads the environment and leaves the state untouched. -/
theorem call_tool_cached (b : Backend) (env : EnvMap) (c : Client)
    (name : String) (args : Args) :
    call_tool b env ⟨some c⟩ name args =
      ⟨CallOutcome.result (wrapResult (dispatch b name args).res), ⟨some c⟩,
       (dispatch b name args).trace, 0, 0⟩ := rfl

/-- Across any sequence of invocations from a cached client, no further
constructions or environment reads happen and the client is kept. -/
theorem runCalls_cached (b : Backend) (env : EnvMap) (c : Client) :
    ∀ invs : List (String × Args),
      runCalls b env ⟨some c⟩ invs = (⟨some c⟩, 0, 0)
  | [] => rfl
  | (n, a) :: rest => by
      simp [runCalls, call_tool_cached, runCalls_cached b env c rest]

/-- The prefix test agrees with list prefixing. -/
theorem chStartsWith_iff : ∀ n h : List Char, chStartsWith n h = true ↔ n <+: h
  | [], h => by simp [chStartsWith]
  | a :: as, [] => by simp [chStartsWith]
  | a :: as, b :: bs => by
      simp [chStartsWith, chStartsWith_iff as bs, List.cons_prefix_cons]

/-- The substring test agrees with list infixing. -/
theorem chContains_iff : ∀ h n : List Char, chContains h n = true ↔ n <:+: h
  | [], n => by simp [chContains, List.isEmpty_iff, List.infix_nil]
  | c :: t, n => by
      simp [chContains, chStartsWith_iff, chContains_iff t n,
        List.infix_cons_iff]

/-- Python substring membership agrees with character-list infixing. -/
theorem strContains_iff (hay needle : String) :
    strContains hay needle = true ↔ needle.data <:+: hay.data := by
  simp [strContains, chContains_iff]

/-- C1 counterexample: with no cached client and the token variable unset,
an invocation makes `call_tool` raise — the construction failure is not
converted into a text Failure result, contradicting the claim. -/
theorem C1_counterexample :
    (call_tool demoBackend noEnv ⟨none⟩ "list_spaces" []).outcome
        = CallOutcome.escaped (PyErr.valueError tokenErrorMsg) ∧
    ∀ content, (call_tool demoBackend noEnv ⟨none⟩ "list_spaces" []).outcome
        ≠ CallOutcome.result content := by
  have h0 : (call_tool demoBackend noEnv ⟨none⟩ "list_spaces" []).outcome
      = CallOutcome.escaped (PyErr.valueError tokenErrorMsg) := by decide
  refine ⟨h0, ?_⟩
  intro content h
  rw [h0] at h
  simp at h

/-- C1 (amended): every failure raised inside the dispatcher's try-scope is
converted into a single text result and no exception escapes, but a client
construction failure on first use escapes `call_tool` as an exception
(construction runs before the try-block); even then the handle is left
unset, never half-constructed. -/
theorem C1_dispatcher_guard (b : Backend) (env : EnvMap) (st : ServerState)
    (name : String) (args : Args) :
    (∀ c, st.webex_api = some c →
      (call_tool b env st name args).outcome
          = CallOutcome.result (wrapResult (dispatch b name args).res) ∧
      (call_tool b env st name args).state = st) ∧
    (∀ c, (init_webex_client env).2 = Except.ok c →
      (call_tool b env st name args).outcome
          = CallOutcome.result (wrapResult (dispatch b name args).res)) ∧
    (∀ e, (call_tool b env st name args).outcome = CallOutcome.escaped e →
      st.webex_api = none ∧ (init_webex_client env).2 = Except.error e ∧
      (call_tool b env st name args).state = st) ∧
    (∀ e, wrapResult (Except.error e)
          = [⟨"text", "Webex API Error: " ++ e.toStr⟩] ∨
      wrapResult (Except.error e) = [⟨"text", "Error: " ++ e.toStr⟩]) := by
  refine ⟨?_, ?_, ?_, ?_⟩
  · intro c hc
    simp [call_tool, hc]
  · intro c hc
    cases hst : st.webex_api with
    | some c2 => simp [call_tool, hst]
    | none => simp [call_tool, hst, hc]
  · intro e he
    cases hst : st.webex_api with
    | some c2 => simp [call_tool, hst] at he
    | none =>
        cases hinit : (init_webex_client env).2 with
        | error e2 =>
            simp [call_tool, hst, hinit] at he
            subst he
            exact ⟨rfl, rfl, by simp [call_tool, hst, hinit]⟩
        | ok c2 => simp [call_tool, hst, hinit] at he
  · intro e
    cases e <;> simp [wrapResult, PyErr.toStr]

/-- C1 witness: with a cached client, an invocation yields a result. -/
theorem C1_dispatcher_guard_witness :
    (call_tool demoBackend demoEnv ⟨some demoClient⟩ "get_my_details" []).outcome
        = CallOutcome.result
            (wrapResult (dispatch demoBackend "get_my_details" []).res) ∧
    (call_tool demoBackend demoEnv ⟨some demoClient⟩ "get_my_details" []).state
        = ⟨some demoClient⟩ :=
  (C1_dispatcher_guard demoBackend demoEnv ⟨some demoClient⟩
    "get_my_details" []).1 demoClient rfl

/-- C2 counterexample: the catalog has eleven descriptors, not ten. -/
theorem C2_counterexample :
    list_tools.length = 11 ∧ list_tools.length ≠ 10 := by
  exact ⟨rfl, by decide⟩

/-- C2 (amended): `list_tools` returns a fixed catalog of exactly eleven
descriptors with pairwise-unique names, and the dispatcher has exactly
one handler branch per catalog name and only the unknown-tool branch for
names outside the catalog. -/
theorem C2_catalog (b : Backend) (args : Args) (n : String)
    (hn : n ∉ list_tools.map Tool.name) :
    dispatch b n args = M.raise (PyErr.valueError ("Unknown tool: " ++ n)) ∧
    list_tools.length = 11 ∧
    (list_tools.map Tool.name).Nodup ∧
    dispatch b "send_message" args = handle_send_message b args ∧
    dispatch b "list_spaces" args = handle_list_spaces b args ∧
    dispatch b "get_space_details" args = handle_get_space_details b args ∧
    dispatch b "get_messages" args = handle_get_messages b args ∧
    dispatch b "create_space" args = handle_create_space b args ∧
    dispatch b "add_person_to_space" args = handle_add_person_to_space b args ∧
    dispatch b "list_space_members" args = handle_list_space_members b args ∧
    dispatch b "get_person_details" args = handle_get_person_details b args ∧
    dispatch b "delete_message" args = handle_delete_message b args ∧
    dispatch b "search_spaces" args = handle_search_spaces b args ∧
    dispatch b "get_my_details" args = handle_get_my_details b args := by
  refine ⟨?_, rfl, by decide, rfl, rfl, rfl, rfl, rfl, rfl, rfl, rfl, rfl,
    rfl, rfl⟩
  simp [list_tools] at hn
  obtain ⟨h1, h2, h3, h4, h5, h6, h7, h8, h9, h10, h11⟩ := hn
  simp [dispatch, h1, h2, h3, h4, h5, h6, h7, h8, h9, h10, h11, M.raise]

/-- C2 witness: a name outside the catalog hits the unknown-tool branch. -/
theorem C2_catalog_witness :
    dispatch demoBackend "bogus" []
        = M.raise (PyErr.valueError ("Unknown tool: " ++ "bogus")) :=
  (C2_catalog demoBackend [] "bogus" (by decide)).1

/-- C6 counterexample: with no cached client and no token, even an
unknown-tool invocation escapes `call_tool` as an exception instead of
returning a Failure result, contradicting the claim as stated. -/
theorem C6_counterexample :
    (call_tool demoBackend noEnv ⟨none⟩ "bogus_tool" []).outcome
        = CallOutcome.escaped (PyErr.valueError tokenErrorMsg) ∧
    ∀ content, (call_tool demoBackend noEnv ⟨none⟩ "bogus_tool" []).outcome
        ≠ CallOutcome.result content := by
  have h0 : (call_tool demoBackend noEnv ⟨none⟩ "bogus_tool" []).outcome
      = CallOutcome.escaped (PyErr.valueError tokenErrorMsg) := by decide
  refine ⟨h0, ?_⟩
  intro content h
  rw [h0] at h
  simp at h

/-- C6 (amended): once the client handle is cached, an invocation with a
name outside the catalog returns a Failure text naming the unknown tool,
no exception escapes, and subsequent invocations are served unchanged. -/
theorem C6_unknown_tool (b : Backend) (env : EnvMap) (c : Client)
    (name : String) (args : Args) (hn : name ∉ list_tools.map Tool.name) :
    (call_tool b env ⟨some c⟩ name args).outcome
        = CallOutcome.result
            [⟨"text", "Error: " ++ ("Unknown tool: " ++ name)⟩] ∧
    (call_tool b env ⟨some c⟩ name args).state = ⟨some c⟩ ∧
    (∀ n2 a2, call_tool b env (call_tool b env ⟨some c⟩ name args).state n2 a2
        = call_tool b env ⟨some c⟩ n2 a2) := by
  simp [list_tools] at hn
  obtain ⟨h1, h2, h3, h4, h5, h6, h7, h8, h9, h10, h11⟩ := hn
  refine ⟨?_, rfl, fun n2 a2 => rfl⟩
  simp [call_tool, dispatch, h1, h2, h3, h4, h5, h6, h7, h8, h9, h10, h11,
    M.raise, wrapResult, PyErr.toStr]

/-- C6 witness: concrete unknown-tool invocation on a cached client. -/
theorem C6_unknown_tool_witness :
    (call_tool demoBackend demoEnv ⟨some demoClient⟩ "bogus" []).outcome
        = CallOutcome.result
            [⟨"text", "Error: " ++ ("Unknown tool: " ++ "bogus")⟩] :=
  (C6_unknown_tool demoBackend demoEnv demoClient "bogus" [] (by decide)).1

/-- C3: with only room_id and text the outgoing payload is exactly roomId
and text with no person lookup; a non-empty markdown is added while text
stays; a non-empty person_email triggers exactly one person lookup before
the create, and toPersonId is the id of the first match. -/
theorem C3_send_message (b : Backend) (args : Args) (r t : PyVal)
    (hr : argGet args "room_id" = some r) (ht : argGet args "text" = some t) :
    (argGet args "markdown" = none → argGet args "person_email" = none →
      (handle_send_message b args).trace
          = [BackendCall.messagesCreate [("roomId", r), ("text", t)]]) ∧
    (∀ m, argGet args "markdown" = some (PyVal.vstr m) → m ≠ "" →
      argGet args "person_email" = none →
      (handle_send_message b args).trace
          = [BackendCall.messagesCreate
              [("roomId", r), ("text", t), ("markdown", PyVal.vstr m)]]) ∧
    (∀ e p ps, argGet args "markdown" = none →
      argGet args "person_email" = some (PyVal.vstr e) → e ≠ "" →
      b.peopleList (PyVal.vstr e) = Except.ok (p :: ps) →
      (handle_send_message b args).trace
          = [BackendCall.peopleList (PyVal.vstr e),
             BackendCall.messagesCreate
               [("roomId", r), ("text", t),
                ("toPersonId", PyVal.vstr p.id)]]) := by
  refine ⟨?_, ?_, ?_⟩
  · intro hm hp
    cases hcr : b.messagesCreate [("roomId", r), ("text", t)] <;>
      simp [handle_send_message, getItem, hr, ht, hm, hp, liftB, hcr]
  · intro m hm hne hp
    cases hcr : b.messagesCreate
        [("roomId", r), ("text", t), ("markdown", PyVal.vstr m)] <;>
      simp [handle_send_message, getItem, hr, ht, hm, hp, PyVal.truthy, hne,
        liftB, hcr]
  · intro e p ps hm hp hne hlist
    cases hcr : b.messagesCreate
        [("roomId", r), ("text", t), ("toPersonId", PyVal.vstr p.id)] <;>
      simp [handle_send_message, getItem, hr, ht, hm, hp, PyVal.truthy, hne,
        hlist, liftB, pyNext, hcr]

/-- C3 witness: the three payload shapes at concrete inputs. -/
theorem C3_send_message_witness :
    (handle_send_message demoBackend
        [("room_id", PyVal.vstr "room-1"), ("text", PyVal.vstr "hi")]).trace
        = [BackendCall.messagesCreate
            [("roomId", PyVal.vstr "room-1"), ("text", PyVal.vstr "hi")]] ∧
    (handle_send_message demoBackend
        [("room_id", PyVal.vstr "room-1"), ("text", PyVal.vstr "hi"),
         ("markdown", PyVal.vstr "**hi**")]).trace
        = [BackendCall.messagesCreate
            [("roomId", PyVal.vstr "room-1"), ("text", PyVal.vstr "hi"),
             ("markdown", PyVal.vstr "**hi**")]] ∧
    (handle_send_message demoBackend
        [("room_id", PyVal.vstr "room-1"), ("text", PyVal.vstr "hi"),
         ("person_email", PyVal.vstr "alice@example.com")]).trace
        = [BackendCall.peopleList (PyVal.vstr "alice@example.com"),
           BackendCall.messagesCreate
             [("roomId", PyVal.vstr "room-1"), ("text", PyVal.vstr "hi"),
              ("toPersonId", PyVal.vstr "person-1")]] :=
  ⟨(C3_send_message demoBackend
      [("room_id", PyVal.vstr "room-1"), ("text", PyVal.vstr "hi")]
      (PyVal.vstr "room-1") (PyVal.vstr "hi") rfl rfl).1 rfl rfl,
   (C3_send_message demoBackend
      [("room_id", PyVal.vstr "room-1"), ("text", PyVal.vstr "hi"),
       ("markdown", PyVal.vstr "**hi**")]
      (PyVal.vstr "room-1") (PyVal.vstr "hi") rfl rfl).2.1
      "**hi**" rfl (by decide) rfl,
   (C3_send_message demoBackend
      [("room_id", PyVal.vstr "room-1"), ("text", PyVal.vstr "hi"),
       ("person_email", PyVal.vstr "alice@example.com")]
      (PyVal.vstr "room-1") (PyVal.vstr "hi") rfl rfl).2.2
      "alice@example.com" demoPerson [] rfl rfl (by decide) rfl⟩

/-- C4: search_spaces fetches once with max 100, selects exactly the rooms
whose title has the search term as a case-insensitive substring, keeps the
backend listing order, and truncates to max_results (default 20). -/
theorem C4_search_spaces (b : Backend) (args : Args) (term : String)
    (mr : Int) (rooms : List Room)
    (hterm : argGet args "search_term" = some (PyVal.vstr term))
    (hmr : argGetD args "max_results" (PyVal.vint 20) = PyVal.vint mr)
    (hmrpos : 0 ≤ mr)
    (hrooms : b.roomsList [("max", PyVal.vint 100)] = Except.ok rooms) :
    (handle_search_spaces b args).trace
        = [BackendCall.roomsList [("max", PyVal.vint 100)]] ∧
    search_matching_rooms rooms (pyStrLower term) (some mr)
        = (rooms.filter (fun room =>
            decide ((pyStrLower term).data <:+: (pyStrLower room.title).data))).take
              mr.toNat ∧
    (search_matching_rooms rooms (pyStrLower term) (some mr)).Sublist rooms ∧
    (search_matching_rooms rooms (pyStrLower term) (some mr)).length
        ≤ mr.toNat ∧
    (∀ room ∈ search_matching_rooms rooms (pyStrLower term) (some mr),
      (pyStrLower term).data <:+: (pyStrLower room.title).data) ∧
    (handle_search_spaces b args).res = Except.ok
      [⟨"text", "Found " ++
          toString (search_matching_rooms rooms (pyStrLower term) (some mr)).length ++
          " matching spaces:\n\n" ++
          dumps [("search_term", JField.scalar (JScalar.s (pyStrLower term))),
                 ("matches_found", JField.scalar (JScalar.i
                   (search_matching_rooms rooms (pyStrLower term) (some mr)).length)),
                 ("spaces", JField.objs
                   ((search_matching_rooms rooms (pyStrLower term) (some mr)).map
                     search_entry))]⟩] := by
  have hfilter : rooms.filter
        (fun room => strContains (pyStrLower room.title) (pyStrLower term))
      = rooms.filter (fun room =>
          decide ((pyStrLower term).data <:+: (pyStrLower room.title).data)) := by
    apply List.filter_congr
    intro x _
    rw [Bool.eq_iff_iff]
    simp [strContains_iff]
  have hsl : search_matching_rooms rooms (pyStrLower term) (some mr)
      = (rooms.filter (fun room =>
          decide ((pyStrLower term).data <:+: (pyStrLower room.title).data))).take
            mr.toNat := by
    rw [search_matching_rooms, pySliceTo, if_neg (not_lt.mpr hmrpos), hfilter]
  refine ⟨?_, hsl, ?_, ?_, ?_, ?_⟩
  · simp [handle_search_spaces, getItem, hterm, pyLowerVal, hmr, pySliceArg,
      liftB, hrooms]
  · rw [hsl]
    exact (List.take_sublist _ _).trans (List.filter_sublist _)
  · rw [hsl]
    exact List.length_take_le _ _
  · intro room hmem
    rw [hsl] at hmem
    have := List.of_mem_filter (List.mem_of_mem_take hmem)
    exact of_decide_eq_true this
  · simp [handle_search_spaces, getItem, hterm, pyLowerVal, hmr, pySliceArg,
      liftB, hrooms]

/-- C4 witness: the spec's own fixture, titles Project Alpha / random /
PROJ notes with search term proj and the default max_results. -/
theorem C4_search_spaces_witness :
    (handle_search_spaces demoBackend
        [("search_term", PyVal.vstr "proj")]).trace
        = [BackendCall.roomsList [("max", PyVal.vint 100)]] ∧
    search_matching_rooms [demoRoom1, demoRoom2, demoRoom3]
        (pyStrLower "proj") (some 20)
        = ([demoRoom1, demoRoom2, demoRoom3].filter (fun room =>
            decide ((pyStrLower "proj").data <:+: (pyStrLower room.title).data))).take
              (Int.toNat 20) ∧
    search_matching_rooms [demoRoom1, demoRoom2, demoRoom3]
        (pyStrLower "proj") (some 20) = [demoRoom1, demoRoom3] :=
  ⟨(C4_search_spaces demoBackend [("search_term", PyVal.vstr "proj")] "proj"
      20 [demoRoom1, demoRoom2, demoRoom3] rfl rfl (by decide) rfl).1,
   (C4_search_spaces demoBackend [("search_term", PyVal.vstr "proj")] "proj"
      20 [demoRoom1, demoRoom2, demoRoom3] rfl rfl (by decide) rfl).2.1,
   by decide⟩

/-- C5: with neither email nor person_id the handler raises the argument
ValueError with an empty backend trace and the dispatcher returns it as a
Failure text; with an email, the person is the first element of the
single lookup's result. -/
theorem C5_person_details_args (b : Backend) (env : EnvMap) (c : Client)
    (args : Args) :
    (argGet args "email" = none → argGet args "person_id" = none →
      handle_get_person_details b args
          = ⟨[], Except.error
              (PyErr.valueError "Either email or person_id must be provided")⟩ ∧
      (call_tool b env ⟨some c⟩ "get_person_details" args).trace = [] ∧
      (call_tool b env ⟨some c⟩ "get_person_details" args).outcome
          = CallOutcome.result
              [⟨"text", "Error: Either email or person_id must be provided"⟩]) ∧
    (∀ e p ps, argGet args "email" = some (PyVal.vstr e) → e ≠ "" →
      b.peopleList (PyVal.vstr e) = Except.ok (p :: ps) →
      handle_get_person_details b args
          = ⟨[BackendCall.peopleList (PyVal.vstr e)],
             Except.ok [⟨"text", "Person details:\n\n" ++
               dumps (person_details_record p)⟩]⟩) := by
  have hd : ∀ a2, dispatch b "get_person_details" a2
      = handle_get_person_details b a2 := fun _ => rfl
  refine ⟨?_, ?_⟩
  · intro he hp
    have hhandler : handle_get_person_details b args
        = ⟨[], Except.error
            (PyErr.valueError "Either email or person_id must be provided")⟩ := by
      simp [handle_get_person_details, he, hp, truthyOpt, M.raise]
    refine ⟨hhandler, ?_, ?_⟩
    · rw [call_tool_cached, hd, hhandler]
    · rw [call_tool_cached, hd, hhandler]
      simp [wrapResult, PyErr.toStr]
  · intro e p ps he hne hlist
    simp [handle_get_person_details, he, truthyOpt, PyVal.truthy, hne,
      liftB, hlist, pyIndex0]

/-- C5 witness: the argument error at an empty bag, and first-match
resolution at a concrete email. -/
theorem C5_person_details_witness :
    (call_tool demoBackend demoEnv ⟨some demoClient⟩
        "get_person_details" []).outcome
        = CallOutcome.result
            [⟨"text", "Error: Either email or person_id must be provided"⟩] ∧
    (call_tool demoBackend demoEnv ⟨some demoClient⟩
        "get_person_details" []).trace = [] ∧
    handle_get_person_details demoBackend
        [("email", PyVal.vstr "alice@example.com")]
        = ⟨[BackendCall.peopleList (PyVal.vstr "alice@example.com")],
           Except.ok [⟨"text", "Person details:\n\n" ++
             dumps (person_details_record demoPerson)⟩]⟩ :=
  ⟨((C5_person_details_args demoBackend demoEnv demoClient []).1
      rfl rfl).2.2,
   ((C5_person_details_args demoBackend demoEnv demoClient []).1
      rfl rfl).2.1,
   (C5_person_details_args demoBackend demoEnv demoClient
      [("email", PyVal.vstr "alice@example.com")]).2
      "alice@example.com" demoPerson [] rfl (by decide) rfl⟩

/-- C7: across a sequence of at least two invocations whose first client
construction succeeds, the client is constructed exactly once, the
environment is read exactly once, and the cached client is kept. -/
theorem C7_single_construction (b : Backend) (env : EnvMap) (tok : String)
    (htok : env "WEBEX_ACCESS_TOKEN" = some tok) (hne : tok ≠ "")
    (invs : List (String × Args)) (hlen : 2 ≤ invs.length) :
    (runCalls b env ⟨none⟩ invs).2.1 = 1 ∧
    (runCalls b env ⟨none⟩ invs).2.2 = 1 ∧
    (runCalls b env ⟨none⟩ invs).1 = ⟨some ⟨tok⟩⟩ := by
  have hinit : (init_webex_client env).2 = Except.ok ⟨tok⟩ := by
    simp [init_webex_client, htok, hne]
  cases invs with
  | nil => simp at hlen
  | cons hd tl =>
      obtain ⟨n, a⟩ := hd
      have hcall : call_tool b env ⟨none⟩ n a
          = ⟨CallOutcome.result (wrapResult (dispatch b n a).res),
             ⟨some ⟨tok⟩⟩, (dispatch b n a).trace, 1, 1⟩ := by
        simp [call_tool, hinit]
      simp [runCalls, hcall, runCalls_cached b env ⟨tok⟩ tl]

/-- C7 witness: two concrete invocations construct the client once. -/
theorem C7_single_construction_witness :
    (runCalls demoBackend demoEnv ⟨none⟩
        [("get_my_details", []), ("list_spaces", [])]).2.1 = 1 ∧
    (runCalls demoBackend demoEnv ⟨none⟩
        [("get_my_details", []), ("list_spaces", [])]).2.2 = 1 ∧
    (runCalls demoBackend demoEnv ⟨none⟩
        [("get_my_details", []), ("list_spaces", [])]).1
        = ⟨some ⟨"demo-token"⟩⟩ :=
  C7_single_construction demoBackend demoEnv "demo-token" rfl (by decide)
    [("get_my_details", []), ("list_spaces", [])] (by decide)

/-- C8: client construction reads exactly the token variable, raises the
ValueError mentioning WEBEX_ACCESS_TOKEN exactly when that variable is
absent or empty, and otherwise returns the client built from the token. -/
theorem C8_client_construction (env : EnvMap) :
    (init_webex_client env).1 = ["WEBEX_ACCESS_TOKEN"] ∧
    ((∃ e, (init_webex_client env).2 = Except.error e) ↔
      (env "WEBEX_ACCESS_TOKEN" = none ∨ env "WEBEX_ACCESS_TOKEN" = some "")) ∧
    (∀ e, (init_webex_client env).2 = Except.error e →
      e = PyErr.valueError tokenErrorMsg) ∧
    chContains tokenErrorMsg.data "WEBEX_ACCESS_TOKEN".data = true ∧
    (∀ tok, env "WEBEX_ACCESS_TOKEN" = some tok → tok ≠ "" →
      (init_webex_client env).2 = Except.ok ⟨tok⟩) := by
  refine ⟨rfl, ?_, ?_, by decide, ?_⟩
  · constructor
    · rintro ⟨e, he⟩
      cases henv : env "WEBEX_ACCESS_TOKEN" with
      | none => exact Or.inl rfl
      | some t =>
          by_cases ht : t = ""
          · exact Or.inr (by rw [ht])
          · simp [init_webex_client, henv, ht] at he
    · rintro (h | h) <;>
        exact ⟨PyErr.valueError tokenErrorMsg, by simp [init_webex_client, h]⟩
  · intro e he
    cases henv : env "WEBEX_ACCESS_TOKEN" with
    | none =>
        simp [init_webex_client, henv] at he
        exact he.symm
    | some t =>
        by_cases ht : t = ""
        · subst ht
          simp [init_webex_client, henv] at he
          exact he.symm
        · simp [init_webex_client, henv, ht] at he
  · intro tok htok hne
    simp [init_webex_client, htok, hne]

/-- C8 witness: a present non-empty token yields the client. -/
theorem C8_client_construction_witness :
    (init_webex_client demoEnv).2 = Except.ok ⟨"demo-token"⟩ ∧
    (init_webex_client demoEnv).1 = ["WEBEX_ACCESS_TOKEN"] :=
  ⟨(C8_client_construction demoEnv).2.2.2.2 "demo-token" rfl (by decide),
   (C8_client_construction demoEnv).1⟩

/-- C9: no schema validation happens in the dispatcher — omitting a
required key of any tool reaches the handler, raises KeyError there
before any backend call, and comes back as an Error text naming only the
missing key. -/
theorem C9_missing_required_key (b : Backend) (env : EnvMap) (c : Client)
    (name k : String) (args : Args)
    (hpair : (name, k) ∈ requiredPairs)
    (hmiss : argGet args k = none)
    (hothers : ∀ k2, (name, k2) ∈ requiredPairs → k2 ≠ k →
      ∃ v, argGet args k2 = some v) :
    (call_tool b env ⟨some c⟩ name args).outcome
        = CallOutcome.result
            [⟨"text", "Error: " ++ ("\x27" ++ k ++ "\x27")⟩] ∧
    (call_tool b env ⟨some c⟩ name args).trace = [] := by
  simp [requiredPairs] at hpair
  obtain h1 | h2 | h3 | h4 | h5 | h6 | h7 | h8 | h9 | h0 := hpair
  · obtain ⟨rfl, rfl⟩ := h1
    have hd : dispatch b "send_message" args = handle_send_message b args := rfl
    rw [call_tool_cached, hd]
    simp [handle_send_message, getItem, hmiss, wrapResult, PyErr.toStr]
  · obtain ⟨rfl, rfl⟩ := h2
    obtain ⟨v, hv⟩ := hothers "room_id" (by simp [requiredPairs]) (by decide)
    have hd : dispatch b "send_message" args = handle_send_message b args := rfl
    rw [call_tool_cached, hd]
    simp [handle_send_message, getItem, hmiss, hv, wrapResult, PyErr.toStr]
  · obtain ⟨rfl, rfl⟩ := h3
    have hd : dispatch b "get_space_details" args
        = handle_get_space_details b args := rfl
    rw [call_tool_cached, hd]
    simp [handle_get_space_details, getItem, hmiss, wrapResult, PyErr.toStr]
  · obtain ⟨rfl, rfl⟩ := h4
    have hd : dispatch b "get_messages" args = handle_get_messages b args := rfl
    rw [call_tool_cached, hd]
    simp [handle_get_messages, getItem, hmiss, wrapResult, PyErr.toStr]
  · obtain ⟨rfl, rfl⟩ := h5
    have hd : dispatch b "create_space" args = handle_create_space b args := rfl
    rw [call_tool_cached, hd]
    simp [handle_create_space, getItem, hmiss, wrapResult, PyErr.toStr]
  · obtain ⟨rfl, rfl⟩ := h6
    have hd : dispatch b "add_person_to_space" args
        = handle_add_person_to_space b args := rfl
    rw [call_tool_cached, hd]
    simp [handle_add_person_to_space, getItem, hmiss, wrapResult, PyErr.toStr]
  · obtain ⟨rfl, rfl⟩ := h7
    obtain ⟨v, hv⟩ := hothers "room_id" (by simp [requiredPairs]) (by decide)
    have hd : dispatch b "add_person_to_space" args
        = handle_add_person_to_space b args := rfl
    rw [call_tool_cached, hd]
    simp [handle_add_person_to_space, getItem, hmiss, hv, wrapResult,
      PyErr.toStr]
  · obtain ⟨rfl, rfl⟩ := h8
    have hd : dispatch b "list_space_members" args
        = handle_list_space_members b args := rfl
    rw [call_tool_cached, hd]
    simp [handle_list_space_members, getItem, hmiss, wrapResult, PyErr.toStr]
  · obtain ⟨rfl, rfl⟩ := h9
    have hd : dispatch b "delete_message" args
        = handle_delete_message b args := rfl
    rw [call_tool_cached, hd]
    simp [handle_delete_message, getItem, hmiss, wrapResult, PyErr.toStr]
  · obtain ⟨rfl, rfl⟩ := h0
    have hd : dispatch b "search_spaces" args
        = handle_search_spaces b args := rfl
    rw [call_tool_cached, hd]
    simp [handle_search_spaces, getItem, hmiss, wrapResult, PyErr.toStr]

/-- C9 witness: send_message without room_id on a cached client. -/
theorem C9_missing_required_key_witness :
    (call_tool demoBackend demoEnv ⟨some demoClient⟩ "send_message"
        [("text", PyVal.vstr "hi")]).outcome
        = CallOutcome.result
            [⟨"text", "Error: " ++ ("\x27" ++ "room_id" ++ "\x27")⟩] ∧
    (call_tool demoBackend demoEnv ⟨some demoClient⟩ "send_message"
        [("text", PyVal.vstr "hi")]).trace = [] :=
  C9_missing_required_key demoBackend demoEnv demoClient "send_message"
    "room_id" [("text", PyVal.vstr "hi")] (by decide) rfl
    (by
      intro k2 h hne
      simp [requiredPairs] at h
      rcases h with rfl | rfl
      · exact absurd rfl hne
      · exact ⟨PyVal.vstr "hi", rfl⟩)

/-- C10: an email whose lookup returns no person makes the first-element
indexing raise IndexError, which the dispatcher renders as the generic
Error text; when the lookup returns at least one person, the handler
succeeds with the first match. -/
theorem C10_empty_lookup (b : Backend) (env : EnvMap) (c : Client)
    (args : Args) (e : String)
    (he : argGet args "email" = some (PyVal.vstr e)) (hne : e ≠ "") :
    (b.peopleList (PyVal.vstr e) = Except.ok [] →
      handle_get_person_details b args
          = ⟨[BackendCall.peopleList (PyVal.vstr e)],
             Except.error PyErr.indexError⟩ ∧
      (call_tool b env ⟨some c⟩ "get_person_details" args).outcome
          = CallOutcome.result
              [⟨"text", "Error: list index out of range"⟩]) ∧
    (∀ p ps, b.peopleList (PyVal.vstr e) = Except.ok (p :: ps) →
      (handle_get_person_details b args).res
          = Except.ok [⟨"text", "Person details:\n\n" ++
              dumps (person_details_record p)⟩]) := by
  have hd : dispatch b "get_person_details" args
      = handle_get_person_details b args := rfl
  constructor
  · intro hlist
    have hh : handle_get_person_details b args
        = ⟨[BackendCall.peopleList (PyVal.vstr e)],
           Except.error PyErr.indexError⟩ := by
      simp [handle_get_person_details, he, truthyOpt, PyVal.truthy, hne,
        liftB, hlist, pyIndex0, M.raise]
    refine ⟨hh, ?_⟩
    rw [call_tool_cached, hd, hh]
    simp [wrapResult, PyErr.toStr]
  · intro p ps hlist
    simp [handle_get_person_details, he, truthyOpt, PyVal.truthy, hne,
      liftB, hlist, pyIndex0]

/-- C10 witness: empty lookup raises, non-empty lookup takes the head. -/
theorem C10_empty_lookup_witness :
    (call_tool emptyPeopleBackend demoEnv ⟨some demoClient⟩
        "get_person_details"
        [("email", PyVal.vstr "alice@example.com")]).outcome
        = CallOutcome.result [⟨"text", "Error: list index out of range"⟩] ∧
    (handle_get_person_details demoBackend
        [("email", PyVal.vstr "alice@example.com")]).res
        = Except.ok [⟨"text", "Person details:\n\n" ++
            dumps (person_details_record demoPerson)⟩] :=
  ⟨((C10_empty_lookup emptyPeopleBackend demoEnv demoClient
      [("email", PyVal.vstr "alice@example.com")] "alice@example.com" rfl
      (by decide)).1 rfl).2,
   (C10_empty_lookup demoBackend demoEnv demoClient
      [("email", PyVal.vstr "alice@example.com")] "alice@example.com" rfl
      (by decide)).2 demoPerson [] rfl⟩

end WebexMCP
